import Mathlib

/-!
# MPU6500 accelerometer driver (Firmware/main)

A shallow embedding of `Firmware/main/src/mpu6500.c` and `Firmware/main/src/main.c`.

The driver talks to three collaborators that are not part of the repository: the ESP-IDF
I2C master driver, the FreeRTOS delay, and the logging / console output.  Every call to one
of them is recorded as an `Event` in a chronological trace, and the results of the calls that
return something (the driver installation and the device transactions) are supplied by a
`Board`, an arbitrary but fixed description of how the hardware answers.
-/

namespace SDFPM

/-! ## Constants of `mpu6500.h` -/

/-- The `esp_err_t` of ESP-IDF: a plain `int`. -/
abbrev esp_err_t := Int

/-- The success code of ESP-IDF. -/
def ESP_OK : esp_err_t := 0

def MPU6500_I2C_ADDRESS : Nat := 0x68
def MPU6500_PWR_MGMT_1 : Nat := 0x6B
def MPU6500_ACCEL_XOUT_H : Nat := 0x3B
def MPU6500_WHO_AM_I : Nat := 0x75
def MPU6500_USER_CRTL : Nat := 0x6A
def MPU6500_CONFIG : Nat := 0x1A
def MPU6500_GYRO_CONFIG : Nat := 0x1B
def MPU6500_ACCEL_CONFIG : Nat := 0x1C
def MPU6500_ACCEL_CONFIG2 : Nat := 0x1D
def MPU6500_SAMPLING_DIV : Nat := 0x19

/-- The macro `(uint8_t)(1 << 7)`. -/
def MPU6500_RESET : Nat := (1 <<< 7) % 256

/-- The macro `(uint8_t)(1 << 0)`. -/
def MPU6500_RST_SIGNAL_PATH : Nat := (1 <<< 0) % 256

def I2C_MASTER_SCL_IO : Nat := 9
def I2C_MASTER_SDA_IO : Nat := 8

/-- The port `I2C_NUM_0`. -/
def I2C_MASTER_NUM : Nat := 0

def I2C_MASTER_FREQ_HZ : Nat := 100000
def I2C_MASTER_TX_BUF_DISABLE : Nat := 0
def I2C_MASTER_RX_BUF_DISABLE : Nat := 0

/-- A duration passed through the FreeRTOS macro `pdMS_TO_TICKS`.  The tick rate of the
kernel is a build setting outside the repository, so the model keeps the number of
milliseconds the source wrote. -/
structure TickType_t where
  ms : Nat
deriving DecidableEq, Repr

def pdMS_TO_TICKS (ms : Nat) : TickType_t := ⟨ms⟩

/-- The macro `#define tempo pdMS_TO_TICKS`. -/
def tempo (ms : Nat) : TickType_t := pdMS_TO_TICKS ms

inductive i2c_mode_t where
  | I2C_MODE_SLAVE
  | I2C_MODE_MASTER
deriving DecidableEq, Repr

/-- The fields of `i2c_config_t` that `i2c_master_init` sets. -/
structure i2c_config_t where
  mode : i2c_mode_t
  sda_io_num : Nat
  scl_io_num : Nat
  sda_pullup_en : Bool
  scl_pullup_en : Bool
  master_clk_speed : Nat
deriving DecidableEq, Repr

/-! ## Floating point

`float` and `double` values are modelled by the rational they denote; `none` stands for a
result that is not finite. -/

/-- A binary floating-point format: precision in bits and exponent range of normal numbers. -/
structure FloatFormat where
  prec : ℕ
  emin : ℤ
  emax : ℤ

/-- The format of C `float`. -/
def binary32 : FloatFormat := ⟨24, -126, 127⟩

/-- The format of C `double`. -/
def binary64 : FloatFormat := ⟨53, -1022, 1023⟩

/-- Nearest integer, ties to the even one. -/
def roundTiesEven (q : ℚ) : ℤ :=
  if q - ⌊q⌋ < 1 / 2 then ⌊q⌋
  else if 1 / 2 < q - ⌊q⌋ then ⌊q⌋ + 1
  else if ⌊q⌋ % 2 = 0 then ⌊q⌋ else ⌊q⌋ + 1

/-- The largest finite value of a format. -/
def FloatFormat.maxFinite (F : FloatFormat) : ℚ :=
  (2 - 2 ^ (1 - (F.prec : ℤ))) * 2 ^ F.emax

/-- Correct rounding (nearest, ties to even) of an exact result into a format, with gradual
underflow; `none` when the rounded value overflows. -/
def FloatFormat.round (F : FloatFormat) (q : ℚ) : Option ℚ :=
  if q = 0 then some 0
  else
    let e : ℤ := max (Int.log 2 |q|) F.emin
    let ulp : ℚ := 2 ^ (e - ((F.prec : ℤ) - 1))
    let r : ℚ := roundTiesEven (q / ulp) * ulp
    if F.maxFinite < |r| then none else some r

/-! ## The environment -/

/-- One call of the firmware into the I2C driver, FreeRTOS, the logger or the console. -/
inductive Event where
  | i2c_param_config (i2c_num : Nat) (conf : i2c_config_t)
  | i2c_driver_install (i2c_num : Nat) (mode : i2c_mode_t) (slv_rx_buf_len : Nat)
      (slv_tx_buf_len : Nat) (intr_alloc_flags : Nat)
  | i2c_master_write_read_device (i2c_num : Nat) (device_address : Nat)
      (write_buffer : List Nat) (read_size : Nat) (ticks_to_wait : TickType_t)
  | i2c_master_write_to_device (i2c_num : Nat) (device_address : Nat)
      (write_buffer : List Nat) (ticks_to_wait : TickType_t)
  | vTaskDelay (xTicksToDelay : TickType_t)
  | ESP_LOGE (tag : String) (format : String) (args : List Int)
  | ESP_LOGI (tag : String) (format : String) (args : List Int)
  | printf (format : String) (args : List (Option ℚ))
  | abort
deriving DecidableEq

/-- The answer of the bus to one device transaction: the status the driver call returns and,
for a read, the byte stored at each index of the receive buffer. -/
structure Reply where
  status : esp_err_t
  data : Nat → Nat

/-- The `uint8_t` a read stores at index `i` of the receive buffer. -/
def Reply.byte (r : Reply) (i : Nat) : Nat := r.data i % 256

/-- How the hardware answers: the result of installing the I2C driver and the answer to the
`n`-th device transaction (counted from 0 over the whole run). -/
structure Board where
  install : esp_err_t
  xfer : Nat → Reply

/-- The observable state of a run: the events so far, oldest first, and the number of device
transactions issued so far. -/
structure World where
  trace : List Event
  txn : Nat

/-- The state at power-on. -/
def World.init : World := ⟨[], 0⟩

/-- Record one event. -/
def World.emit (w : World) (e : Event) : World := ⟨w.trace ++ [e], w.txn⟩

/-- ESP-IDF `i2c_param_config`; its result is not looked at by the firmware. -/
def i2c_param_config (i2c_num : Nat) (conf : i2c_config_t) (w : World) : World :=
  w.emit (.i2c_param_config i2c_num conf)

/-- ESP-IDF `i2c_driver_install`. -/
def i2c_driver_install (b : Board) (i2c_num : Nat) (mode : i2c_mode_t) (slv_rx_buf_len : Nat)
    (slv_tx_buf_len : Nat) (intr_alloc_flags : Nat) (w : World) : esp_err_t × World :=
  (b.install, w.emit (.i2c_driver_install i2c_num mode slv_rx_buf_len slv_tx_buf_len
    intr_alloc_flags))

/-- ESP-IDF `i2c_master_write_read_device`: one combined write-then-read transaction.  Returns
the status and the bytes of the receive buffer. -/
def i2c_master_write_read_device (b : Board) (i2c_num : Nat) (device_address : Nat)
    (write_buffer : List Nat) (read_size : Nat) (ticks_to_wait : TickType_t) (w : World) :
    (esp_err_t × List Nat) × World :=
  (((b.xfer w.txn).status, (List.range read_size).map (b.xfer w.txn).byte),
    ⟨w.trace ++ [.i2c_master_write_read_device i2c_num device_address write_buffer read_size
      ticks_to_wait], w.txn + 1⟩)

/-- ESP-IDF `i2c_master_write_to_device`: one write transaction. -/
def i2c_master_write_to_device (b : Board) (i2c_num : Nat) (device_address : Nat)
    (write_buffer : List Nat) (ticks_to_wait : TickType_t) (w : World) : esp_err_t × World :=
  ((b.xfer w.txn).status,
    ⟨w.trace ++ [.i2c_master_write_to_device i2c_num device_address write_buffer ticks_to_wait],
      w.txn + 1⟩)

/-- The macro `#define Delay_ms vTaskDelay`. -/
def Delay_ms (t : TickType_t) (w : World) : World := w.emit (.vTaskDelay t)

def ESP_LOGE (tag : String) (format : String) (args : List Int) (w : World) : World :=
  w.emit (.ESP_LOGE tag format args)

def ESP_LOGI (tag : String) (format : String) (args : List Int) (w : World) : World :=
  w.emit (.ESP_LOGI tag format args)

/-! ## `mpu6500.c` -/

/-- The log tag of `mpu6500.c`. -/
def TAG : String := "MPU6500_DRIVER"

def i2c_master_init (b : Board) (w : World) : esp_err_t × World :=
  let conf : i2c_config_t :=
    { mode := .I2C_MODE_MASTER
      sda_io_num := I2C_MASTER_SDA_IO
      scl_io_num := I2C_MASTER_SCL_IO
      sda_pullup_en := true
      scl_pullup_en := true
      master_clk_speed := I2C_MASTER_FREQ_HZ }
  let w := i2c_param_config I2C_MASTER_NUM conf w
  i2c_driver_install b I2C_MASTER_NUM conf.mode I2C_MASTER_RX_BUF_DISABLE
    I2C_MASTER_TX_BUF_DISABLE 0 w

def MPU_Write (b : Board) (reg_addr : Nat) (data : Nat) (w : World) : esp_err_t × World :=
  let write_buf : List Nat := [reg_addr, data]
  i2c_master_write_to_device b I2C_MASTER_NUM MPU6500_I2C_ADDRESS write_buf (tempo 1000) w

def MPU_Reset (b : Board) (w : World) : esp_err_t × World :=
  let r := MPU_Write b MPU6500_PWR_MGMT_1 MPU6500_RESET w
  (r.1, Delay_ms (tempo 100) r.2)

def MPU_ResetDigitalFilters (b : Board) (w : World) : esp_err_t × World :=
  let r := MPU_Write b MPU6500_I2C_ADDRESS 0b00000111 w
  (r.1, Delay_ms (tempo 100) r.2)

def MPU_ResetDataRegisters (b : Board) (w : World) : esp_err_t × World :=
  let r := MPU_Write b MPU6500_USER_CRTL MPU6500_RST_SIGNAL_PATH w
  (r.1, Delay_ms (tempo 100) r.2)

def MPU_ClockConfig (b : Board) (w : World) : esp_err_t × World :=
  let r := MPU_Write b MPU6500_PWR_MGMT_1 0b001 w
  (r.1, Delay_ms (tempo 100) r.2)

def MPU_ConfigSampling_Filtering (b : Board) (w : World) : esp_err_t × World :=
  let r := MPU_Write b MPU6500_CONFIG 0b100 w
  (r.1, Delay_ms (tempo 100) r.2)

def MPU_SetGyroscope (b : Board) (w : World) : esp_err_t × World :=
  let r := MPU_Write b MPU6500_GYRO_CONFIG 0x00 w
  (r.1, Delay_ms (tempo 100) r.2)

def MPU_SetAccelerometer (b : Board) (w : World) : esp_err_t × World :=
  let r := MPU_Write b MPU6500_ACCEL_CONFIG 0x00 w
  (r.1, Delay_ms (tempo 100) r.2)

def MPU_SetLPF_Accelerometer (b : Board) (w : World) : esp_err_t × World :=
  let r := MPU_Write b MPU6500_ACCEL_CONFIG2 0b100 w
  (r.1, Delay_ms (tempo 100) r.2)

def MPU_SetSmaplingRate (b : Board) (w : World) : esp_err_t × World :=
  let r := MPU_Write b MPU6500_SAMPLING_DIV 9 w
  (r.1, Delay_ms (tempo 100) r.2)

def MPU6500_Setup (b : Board) (w : World) : esp_err_t × World :=
  let who_am_i_reg := MPU6500_WHO_AM_I
  let r := i2c_master_write_read_device b I2C_MASTER_NUM MPU6500_I2C_ADDRESS [who_am_i_reg] 1
    (tempo 1000) w
  let status := r.1.1
  let check := r.1.2.headD 0
  let w := r.2
  if status ≠ ESP_OK then
    (status, ESP_LOGE TAG "Falha ao ler WHO_AM_I: %s" [status] w)
  else if check = 0x70 ∨ check = 0x68 then
    let w := ESP_LOGI TAG "MPU6500 detectado com sucesso! WHO_AM_I: 0x%02X" [check] w
    let w := Delay_ms (tempo 100) w
    let r := MPU_Reset b w
    if r.1 ≠ ESP_OK then
      (r.1, ESP_LOGE TAG "Falha ao Resetar %s" [r.1] r.2)
    else
    let r := MPU_ResetDigitalFilters b r.2
    if r.1 ≠ ESP_OK then
      (r.1, ESP_LOGE TAG "Falha ao Resetar os Filtros Digitais %s" [r.1] r.2)
    else
    let r := MPU_ResetDataRegisters b r.2
    if r.1 ≠ ESP_OK then
      (r.1, ESP_LOGE TAG "Falha ao Resetar os Registradores de Dado %s" [r.1] r.2)
    else
    let r := MPU_ClockConfig b r.2
    if r.1 ≠ ESP_OK then
      (r.1, ESP_LOGE TAG "Falha ao Configurar o Clock %s" [r.1] r.2)
    else
    let r := MPU_ConfigSampling_Filtering b r.2
    if r.1 ≠ ESP_OK then
      (r.1, ESP_LOGE TAG "Falha a amostra e filtro %s" [r.1] r.2)
    else
    let r := MPU_SetGyroscope b r.2
    if r.1 ≠ ESP_OK then
      (r.1, ESP_LOGE TAG "Falha ao set o valor do giroscópio %s" [r.1] r.2)
    else
    let r := MPU_SetAccelerometer b r.2
    if r.1 ≠ ESP_OK then
      (r.1, ESP_LOGE TAG "Falha ao set o valor do Acelerômetro %s" [r.1] r.2)
    else
    let r := MPU_SetLPF_Accelerometer b r.2
    if r.1 ≠ ESP_OK then
      (r.1, ESP_LOGE TAG "Falha ao set o valor de LPF do Acelerômetro %s" [r.1] r.2)
    else
    let r := MPU_SetSmaplingRate b r.2
    if r.1 ≠ ESP_OK then
      (r.1, ESP_LOGE TAG "Falha ao set o valor Velocidade de Amostras %s" [r.1] r.2)
    else
      (r.1, r.2)
  else
    (status, ESP_LOGE TAG "MPU Com Defeito! %s" [status] w)

def MPU_Init (b : Board) (w : World) : esp_err_t × World :=
  let r := i2c_master_init b w
  if r.1 ≠ ESP_OK then
    (r.1, ESP_LOGE TAG "Falha na inicialização do I2C: %s" [r.1] r.2)
  else
    let w := ESP_LOGI TAG "I2C inicializado com sucesso!" [] r.2
    let r := MPU6500_Setup b w
    if r.1 ≠ ESP_OK then
      (r.1, ESP_LOGE TAG "Falha ao acordar o MPU6500: %s" [r.1] r.2)
    else
      (ESP_OK, ESP_LOGI TAG "MPU6500 acordado com sucesso!" [] r.2)

/-- The conversion of an `int` to `int16_t`: the value is reduced modulo 2^16 into the range
of the type. -/
def int16_t_of_int (n : Int) : Int := (n + 32768) % 65536 - 32768

/-- The expression `(data[i] << 8) | data[i + 1]` of `MPU_ReadAccelerometer`, on two `uint8_t`
promoted to `int`, stored into an `int16_t`. -/
def combine (hi : Nat) (lo : Nat) : Int := int16_t_of_int (((hi <<< 8) ||| lo : Nat) : Int)

/-- The three output parameters are passed in with their current values and returned; on
failure they are returned unchanged. -/
def MPU_ReadAccelerometer (b : Board) (accel_x : Int) (accel_y : Int) (accel_z : Int)
    (w : World) : (esp_err_t × Int × Int × Int) × World :=
  let r := i2c_master_write_read_device b I2C_MASTER_NUM MPU6500_I2C_ADDRESS
    [MPU6500_ACCEL_XOUT_H] 6 (pdMS_TO_TICKS 1000) w
  let err := r.1.1
  let data := r.1.2
  if err ≠ ESP_OK then
    ((err, accel_x, accel_y, accel_z), r.2)
  else
    ((ESP_OK, combine (data.getD 0 0) (data.getD 1 0), combine (data.getD 2 0) (data.getD 3 0),
      combine (data.getD 4 0) (data.getD 5 0)), r.2)

/-- The expression `raw / 16384.0` returned as `float`: the `int16_t` is converted to `double`
(exactly), divided in `double` by the constant 2^14, and the quotient is converted to
`float`. -/
def MPU_ConverterValue_X (accel_x_raw : Int) : Option ℚ :=
  (binary64.round ((accel_x_raw : ℚ) / 16384)).bind binary32.round

def MPU_ConverterValue_Y (accel_y_raw : Int) : Option ℚ :=
  (binary64.round ((accel_y_raw : ℚ) / 16384)).bind binary32.round

def MPU_ConverterValue_Z (accel_z_raw : Int) : Option ℚ :=
  (binary64.round ((accel_z_raw : ℚ) / 16384)).bind binary32.round

/-! ## `main.c` -/

namespace Main

/-- The log tag of `main.c`. -/
def TAG : String := "MAIN_APP"

def printf (format : String) (args : List (Option ℚ)) (w : World) : World :=
  w.emit (.printf format args)

/-- The local variables of `app_main` that live across iterations of its loop. -/
structure Locals where
  accel_x_raw : Int
  accel_y_raw : Int
  accel_z_raw : Int

/-- One pass through the body of `while (1)` in `app_main`. -/
def loop_body (b : Board) (s : Locals × World) : Locals × World :=
  let r := MPU_ReadAccelerometer b s.1.accel_x_raw s.1.accel_y_raw s.1.accel_z_raw s.2
  let err := r.1.1
  let raw : Locals := ⟨r.1.2.1, r.1.2.2.1, r.1.2.2.2⟩
  let accel_x := MPU_ConverterValue_X raw.accel_x_raw
  let accel_y := MPU_ConverterValue_Y raw.accel_y_raw
  let accel_z := MPU_ConverterValue_Z raw.accel_z_raw
  let w :=
    if err = ESP_OK then
      printf "Accel X: %.2f \t Accel Y: %.2f \t Accel Z: %.2f\n" [accel_x, accel_y, accel_z] r.2
    else
      ESP_LOGE TAG "Falha ao ler o acelerômetro: %s" [err] r.2
  (raw, Delay_ms (tempo 500) w)

/-- The first `n` passes of the loop `while (1)`. -/
def loop (b : Board) : Nat → Locals × World → Locals × World
  | 0, s => s
  | n + 1, s => loop b n (loop_body b s)

/-- The entry point, observed up to the end of the `n`-th pass of its loop.  The locals start
with whatever the stack holds (`uninit`); `ESP_ERROR_CHECK` aborts the program when `MPU_Init`
does not return `ESP_OK`. -/
def app_main (b : Board) (uninit : Locals) (n : Nat) : World :=
  let r := MPU_Init b World.init
  if r.1 ≠ ESP_OK then
    r.2.emit .abort
  else
    let w := ESP_LOGI TAG "Driver do MPU6500 inicializado." [] r.2
    (loop b n (uninit, w)).2

end Main

/-! ## Reading a trace -/

/-- Device transactions on the bus: the combined write-then-read and the plain write. -/
def Event.isTransaction : Event → Bool
  | .i2c_master_write_read_device _ _ _ _ _ => true
  | .i2c_master_write_to_device _ _ _ _ => true
  | _ => false

/-- Plain writes, the 2-byte register write frames of the driver. -/
def Event.isWrite : Event → Bool
  | .i2c_master_write_to_device _ _ _ _ => true
  | _ => false

/-- The device bus trace: the transactions of a trace, in order. -/
def busTrace (t : List Event) : List Event := t.filter Event.isTransaction

/-- The delays of a trace in milliseconds, in order. -/
def delays : List Event → List Nat
  | [] => []
  | .vTaskDelay t :: rest => t.ms :: delays rest
  | _ :: rest => delays rest

/-- Every plain write of the trace has a 100 ms delay as the very next event. -/
def writesSettled : List Event → Bool
  | [] => true
  | .i2c_master_write_to_device _ _ _ _ :: rest =>
      decide (rest.head? = some (.vTaskDelay (tempo 100))) && writesSettled rest
  | _ :: rest => writesSettled rest

/-- The events a call added: the trace after it without the trace before it. -/
def added (before : World) (after : World) : List Event :=
  after.trace.drop before.trace.length

/-- The read of the identity register. -/
def identityRead : Event :=
  .i2c_master_write_read_device 0 0x68 [0x75] 1 ⟨1000⟩

/-- A 2-byte write frame `[register, value]` to device address 0x68. -/
def frame (register : Nat) (value : Nat) : Event :=
  .i2c_master_write_to_device 0 0x68 [register, value] ⟨1000⟩

/-- The ten device transactions of a complete initialization, in order. -/
def initTransactions : List Event :=
  [identityRead, frame 0x6B 0x80, frame 0x68 0x07, frame 0x6A 0x01, frame 0x6B 0x01,
   frame 0x1A 0x04, frame 0x1B 0x00, frame 0x1C 0x00, frame 0x1D 0x04, frame 0x19 0x09]

/-- The status of step `N` of `MPU_Init`: step 0 installs the driver, step 1 reads the identity
register, steps 2 to 10 are the nine register writes. -/
def Board.stepStatus (b : Board) (N : Nat) : esp_err_t :=
  if N = 0 then b.install else (b.xfer (N - 1)).status

/-- The signed value of a 16-bit two's-complement pattern. -/
def twosComplement16 (pattern : Nat) : Int :=
  if pattern < 32768 then (pattern : Int) else (pattern : Int) - 65536

/-- Big-endian two's-complement encoding of a value into (high byte, low byte). -/
def encodeBE16 (v : Int) : Nat × Nat :=
  (((v % 65536) / 256).toNat, ((v % 65536) % 256).toNat)

/-! ## Vocabulary of the proofs -/

/-- A register write followed by its settle delay: what each of the nine configuration steps
does to the state. -/
def writeStep (b : Board) (register : Nat) (value : Nat) (w : World) : esp_err_t × World :=
  ((b.xfer w.txn).status,
    ⟨w.trace ++ [frame register value, .vTaskDelay ⟨100⟩], w.txn + 1⟩)

/-- A list of configuration steps run the way `MPU6500_Setup` runs its nine: each step is a
register write with its delay, and the first step whose status is not `ESP_OK` logs its
message and ends the run with that status. -/
def runSteps (b : Board) : List (Nat × Nat × String) → World → esp_err_t × World
  | [], w => (ESP_OK, w)
  | s :: rest, w =>
      if (writeStep b s.1 s.2.1 w).1 ≠ ESP_OK then
        ((writeStep b s.1 s.2.1 w).1,
          (writeStep b s.1 s.2.1 w).2.emit
            (.ESP_LOGE TAG s.2.2 [(writeStep b s.1 s.2.1 w).1]))
      else runSteps b rest (writeStep b s.1 s.2.1 w).2

/-- The nine configuration steps of `MPU6500_Setup`: register, value, failure message. -/
def configSteps : List (Nat × Nat × String) :=
  [(0x6B, 0x80, "Falha ao Resetar %s"),
   (0x68, 0x07, "Falha ao Resetar os Filtros Digitais %s"),
   (0x6A, 0x01, "Falha ao Resetar os Registradores de Dado %s"),
   (0x6B, 0x01, "Falha ao Configurar o Clock %s"),
   (0x1A, 0x04, "Falha a amostra e filtro %s"),
   (0x1B, 0x00, "Falha ao set o valor do giroscópio %s"),
   (0x1C, 0x00, "Falha ao set o valor do Acelerômetro %s"),
   (0x1D, 0x04, "Falha ao set o valor de LPF do Acelerômetro %s"),
   (0x19, 0x09, "Falha ao set o valor Velocidade de Amostras %s")]

/-- The events of a run of configuration steps in which every write succeeds. -/
def stepsEvents : List (Nat × Nat × String) → List Event
  | [] => []
  | s :: rest => frame s.1 s.2.1 :: .vTaskDelay ⟨100⟩ :: stepsEvents rest

/-- The write frames of a list of configuration steps. -/
def stepsFrames (L : List (Nat × Nat × String)) : List Event :=
  L.map (fun s => frame s.1 s.2.1)

/-- The state after the identity read. -/
def afterIdentityRead (w : World) : World := ⟨w.trace ++ [identityRead], w.txn + 1⟩

/-- The log line of a passed identity check. -/
def identityLog (v : Nat) : Event :=
  .ESP_LOGI TAG "MPU6500 detectado com sucesso! WHO_AM_I: 0x%02X" [(v : Int)]

/-- The two calls of `i2c_master_init`. -/
def installEvents : List Event :=
  [.i2c_param_config 0 ⟨.I2C_MODE_MASTER, 8, 9, true, true, 100000⟩,
   .i2c_driver_install 0 .I2C_MODE_MASTER 0 0 0]

/-- The state in which `MPU_Init` calls `MPU6500_Setup`, at power-on. -/
def beforeSetup : World :=
  ⟨installEvents ++ [.ESP_LOGI TAG "I2C inicializado com sucesso!" []], 0⟩

/-- A board on which every operation succeeds and the identity register reads 0x68. -/
def goodBoard : Board := ⟨ESP_OK, fun _ => ⟨ESP_OK, fun _ => 0x68⟩⟩

/-- A board on which every operation succeeds and every register reads as `v`. -/
def boardReading (v : Nat) : Board := ⟨ESP_OK, fun _ => ⟨ESP_OK, fun _ => v⟩⟩

/-- A board on which the driver installs and the `k`-th device transaction fails with `e`,
every other one succeeding with all bytes 0x70. -/
def boardFailingAt (k : Nat) (e : esp_err_t) : Board :=
  ⟨ESP_OK, fun n => ⟨if n = k then e else ESP_OK, fun _ => 0x70⟩⟩

/-- A board on which every operation succeeds and every read returns the bytes of `d`. -/
def boardOfBytes (d : List Nat) : Board :=
  ⟨ESP_OK, fun _ => ⟨ESP_OK, fun i => d.getD i 0⟩⟩

/-- A board whose reads return the six bytes 0x40, 0x00, 0x00, 0x00, 0xC0, 0x00. -/
def sampleBoard : Board :=
  ⟨ESP_OK, fun _ => ⟨ESP_OK, fun i => [0x40, 0x00, 0x00, 0x00, 0xC0, 0x00].getD i 0⟩⟩

/-- The events of one pass of the polling loop, from the answer of the bus to its read: the
read itself, then one sample line with the three converted values when the read succeeded
and one error line when it failed, then the 500 ms delay. -/
def passEvents (r : Reply) : List Event :=
  [.i2c_master_write_read_device 0 0x68 [0x3B] 6 ⟨1000⟩,
   if r.status = ESP_OK then
     .printf "Accel X: %.2f \t Accel Y: %.2f \t Accel Z: %.2f\n"
       [MPU_ConverterValue_X (combine (r.byte 0) (r.byte 1)),
        MPU_ConverterValue_Y (combine (r.byte 2) (r.byte 3)),
        MPU_ConverterValue_Z (combine (r.byte 4) (r.byte 5))]
   else
     .ESP_LOGE Main.TAG "Falha ao ler o acelerômetro: %s" [r.status],
   .vTaskDelay ⟨500⟩]

/-! ## Properties of the initialization sequence -/

theorem MPU_Reset_eq (b : Board) (w : World) : MPU_Reset b w = writeStep b 0x6B 0x80 w := by
  simp [MPU_Reset, writeStep, MPU_Write, i2c_master_write_to_device, Delay_ms, World.emit, frame,
    tempo, pdMS_TO_TICKS, I2C_MASTER_NUM, MPU6500_I2C_ADDRESS, MPU6500_PWR_MGMT_1, MPU6500_RESET,
    MPU6500_USER_CRTL, MPU6500_RST_SIGNAL_PATH, MPU6500_CONFIG, MPU6500_GYRO_CONFIG,
    MPU6500_ACCEL_CONFIG, MPU6500_ACCEL_CONFIG2, MPU6500_SAMPLING_DIV]

theorem MPU_ResetDigitalFilters_eq (b : Board) (w : World) :
    MPU_ResetDigitalFilters b w = writeStep b 0x68 0x07 w := by
  simp [MPU_ResetDigitalFilters, writeStep, MPU_Write, i2c_master_write_to_device, Delay_ms, World.emit, frame,
    tempo, pdMS_TO_TICKS, I2C_MASTER_NUM, MPU6500_I2C_ADDRESS, MPU6500_PWR_MGMT_1, MPU6500_RESET,
    MPU6500_USER_CRTL, MPU6500_RST_SIGNAL_PATH, MPU6500_CONFIG, MPU6500_GYRO_CONFIG,
    MPU6500_ACCEL_CONFIG, MPU6500_ACCEL_CONFIG2, MPU6500_SAMPLING_DIV]

theorem MPU_ResetDataRegisters_eq (b : Board) (w : World) :
    MPU_ResetDataRegisters b w = writeStep b 0x6A 0x01 w := by
  simp [MPU_ResetDataRegisters, writeStep, MPU_Write, i2c_master_write_to_device, Delay_ms, World.emit, frame,
    tempo, pdMS_TO_TICKS, I2C_MASTER_NUM, MPU6500_I2C_ADDRESS, MPU6500_PWR_MGMT_1, MPU6500_RESET,
    MPU6500_USER_CRTL, MPU6500_RST_SIGNAL_PATH, MPU6500_CONFIG, MPU6500_GYRO_CONFIG,
    MPU6500_ACCEL_CONFIG, MPU6500_ACCEL_CONFIG2, MPU6500_SAMPLING_DIV]

theorem MPU_ClockConfig_eq (b : Board) (w : World) :
    MPU_ClockConfig b w = writeStep b 0x6B 0x01 w := by
  simp [MPU_ClockConfig, writeStep, MPU_Write, i2c_master_write_to_device, Delay_ms, World.emit, frame,
    tempo, pdMS_TO_TICKS, I2C_MASTER_NUM, MPU6500_I2C_ADDRESS, MPU6500_PWR_MGMT_1, MPU6500_RESET,
    MPU6500_USER_CRTL, MPU6500_RST_SIGNAL_PATH, MPU6500_CONFIG, MPU6500_GYRO_CONFIG,
    MPU6500_ACCEL_CONFIG, MPU6500_ACCEL_CONFIG2, MPU6500_SAMPLING_DIV]

theorem MPU_ConfigSampling_Filtering_eq (b : Board) (w : World) :
    MPU_ConfigSampling_Filtering b w = writeStep b 0x1A 0x04 w := by
  simp [MPU_ConfigSampling_Filtering, writeStep, MPU_Write, i2c_master_write_to_device, Delay_ms, World.emit, frame,
    tempo, pdMS_TO_TICKS, I2C_MASTER_NUM, MPU6500_I2C_ADDRESS, MPU6500_PWR_MGMT_1, MPU6500_RESET,
    MPU6500_USER_CRTL, MPU6500_RST_SIGNAL_PATH, MPU6500_CONFIG, MPU6500_GYRO_CONFIG,
    MPU6500_ACCEL_CONFIG, MPU6500_ACCEL_CONFIG2, MPU6500_SAMPLING_DIV]

theorem MPU_SetGyroscope_eq (b : Board) (w : World) :
    MPU_SetGyroscope b w = writeStep b 0x1B 0x00 w := by
  simp [MPU_SetGyroscope, writeStep, MPU_Write, i2c_master_write_to_device, Delay_ms, World.emit, frame,
    tempo, pdMS_TO_TICKS, I2C_MASTER_NUM, MPU6500_I2C_ADDRESS, MPU6500_PWR_MGMT_1, MPU6500_RESET,
    MPU6500_USER_CRTL, MPU6500_RST_SIGNAL_PATH, MPU6500_CONFIG, MPU6500_GYRO_CONFIG,
    MPU6500_ACCEL_CONFIG, MPU6500_ACCEL_CONFIG2, MPU6500_SAMPLING_DIV]

theorem MPU_SetAccelerometer_eq (b : Board) (w : World) :
    MPU_SetAccelerometer b w = writeStep b 0x1C 0x00 w := by
  simp [MPU_SetAccelerometer, writeStep, MPU_Write, i2c_master_write_to_device, Delay_ms, World.emit, frame,
    tempo, pdMS_TO_TICKS, I2C_MASTER_NUM, MPU6500_I2C_ADDRESS, MPU6500_PWR_MGMT_1, MPU6500_RESET,
    MPU6500_USER_CRTL, MPU6500_RST_SIGNAL_PATH, MPU6500_CONFIG, MPU6500_GYRO_CONFIG,
    MPU6500_ACCEL_CONFIG, MPU6500_ACCEL_CONFIG2, MPU6500_SAMPLING_DIV]

theorem MPU_SetLPF_Accelerometer_eq (b : Board) (w : World) :
    MPU_SetLPF_Accelerometer b w = writeStep b 0x1D 0x04 w := by
  simp [MPU_SetLPF_Accelerometer, writeStep, MPU_Write, i2c_master_write_to_device, Delay_ms, World.emit, frame,
    tempo, pdMS_TO_TICKS, I2C_MASTER_NUM, MPU6500_I2C_ADDRESS, MPU6500_PWR_MGMT_1, MPU6500_RESET,
    MPU6500_USER_CRTL, MPU6500_RST_SIGNAL_PATH, MPU6500_CONFIG, MPU6500_GYRO_CONFIG,
    MPU6500_ACCEL_CONFIG, MPU6500_ACCEL_CONFIG2, MPU6500_SAMPLING_DIV]

theorem MPU_SetSmaplingRate_eq (b : Board) (w : World) :
    MPU_SetSmaplingRate b w = writeStep b 0x19 0x09 w := by
  simp [MPU_SetSmaplingRate, writeStep, MPU_Write, i2c_master_write_to_device, Delay_ms, World.emit, frame,
    tempo, pdMS_TO_TICKS, I2C_MASTER_NUM, MPU6500_I2C_ADDRESS, MPU6500_PWR_MGMT_1, MPU6500_RESET,
    MPU6500_USER_CRTL, MPU6500_RST_SIGNAL_PATH, MPU6500_CONFIG, MPU6500_GYRO_CONFIG,
    MPU6500_ACCEL_CONFIG, MPU6500_ACCEL_CONFIG2, MPU6500_SAMPLING_DIV]

theorem identity_read_eq (b : Board) (w : World) :
    i2c_master_write_read_device b I2C_MASTER_NUM MPU6500_I2C_ADDRESS [MPU6500_WHO_AM_I] 1
      (tempo 1000) w
    = (((b.xfer w.txn).status, [(b.xfer w.txn).byte 0]), afterIdentityRead w) := rfl

/-- The body of `MPU6500_Setup` with its nine configuration steps folded into `runSteps`. -/
theorem MPU6500_Setup_eq (b : Board) (w : World) :
    MPU6500_Setup b w =
      if (b.xfer w.txn).status ≠ ESP_OK then
        ((b.xfer w.txn).status,
          (afterIdentityRead w).emit
            (.ESP_LOGE TAG "Falha ao ler WHO_AM_I: %s" [(b.xfer w.txn).status]))
      else if (b.xfer w.txn).byte 0 = 0x70 ∨ (b.xfer w.txn).byte 0 = 0x68 then
        runSteps b configSteps
          (((afterIdentityRead w).emit
            (.ESP_LOGI TAG "MPU6500 detectado com sucesso! WHO_AM_I: 0x%02X"
              [((b.xfer w.txn).byte 0 : Int)])).emit (.vTaskDelay ⟨100⟩))
      else
        ((b.xfer w.txn).status,
          (afterIdentityRead w).emit
            (.ESP_LOGE TAG "MPU Com Defeito! %s" [(b.xfer w.txn).status])) := by
  unfold MPU6500_Setup
  simp only [identity_read_eq, List.headD_cons]
  simp only [MPU_Reset_eq, MPU_ResetDigitalFilters_eq,
    MPU_ResetDataRegisters_eq, MPU_ClockConfig_eq, MPU_ConfigSampling_Filtering_eq,
    MPU_SetGyroscope_eq, MPU_SetAccelerometer_eq, MPU_SetLPF_Accelerometer_eq,
    MPU_SetSmaplingRate_eq, configSteps, runSteps, ESP_LOGE, ESP_LOGI, Delay_ms, tempo,
    pdMS_TO_TICKS]
  by_cases h0 : (b.xfer w.txn).status ≠ ESP_OK
  · rw [if_pos h0, if_pos h0]
  rw [if_neg h0, if_neg h0]
  by_cases hid : (b.xfer w.txn).byte 0 = 0x70 ∨ (b.xfer w.txn).byte 0 = 0x68
  swap
  · rw [if_neg hid, if_neg hid]
  rw [if_pos hid, if_pos hid]
  generalize ((afterIdentityRead w).emit _).emit _ = w0
  by_cases h1 : (writeStep b 107 128 w0).1 ≠ ESP_OK
  · rw [if_pos h1, if_pos h1]
  rw [if_neg h1, if_neg h1]
  generalize (writeStep b 107 128 w0).2 = w1
  by_cases h2 : (writeStep b 104 7 w1).1 ≠ ESP_OK
  · rw [if_pos h2, if_pos h2]
  rw [if_neg h2, if_neg h2]
  generalize (writeStep b 104 7 w1).2 = w2
  by_cases h3 : (writeStep b 106 1 w2).1 ≠ ESP_OK
  · rw [if_pos h3, if_pos h3]
  rw [if_neg h3, if_neg h3]
  generalize (writeStep b 106 1 w2).2 = w3
  by_cases h4 : (writeStep b 107 1 w3).1 ≠ ESP_OK
  · rw [if_pos h4, if_pos h4]
  rw [if_neg h4, if_neg h4]
  generalize (writeStep b 107 1 w3).2 = w4
  by_cases h5 : (writeStep b 26 4 w4).1 ≠ ESP_OK
  · rw [if_pos h5, if_pos h5]
  rw [if_neg h5, if_neg h5]
  generalize (writeStep b 26 4 w4).2 = w5
  by_cases h6 : (writeStep b 27 0 w5).1 ≠ ESP_OK
  · rw [if_pos h6, if_pos h6]
  rw [if_neg h6, if_neg h6]
  generalize (writeStep b 27 0 w5).2 = w6
  by_cases h7 : (writeStep b 28 0 w6).1 ≠ ESP_OK
  · rw [if_pos h7, if_pos h7]
  rw [if_neg h7, if_neg h7]
  generalize (writeStep b 28 0 w6).2 = w7
  by_cases h8 : (writeStep b 29 4 w7).1 ≠ ESP_OK
  · rw [if_pos h8, if_pos h8]
  rw [if_neg h8, if_neg h8]
  generalize (writeStep b 29 4 w7).2 = w8
  by_cases h9 : (writeStep b 25 9 w8).1 ≠ ESP_OK
  · rw [if_pos h9, if_pos h9]
  rw [if_neg h9, if_neg h9, not_not.mp h9]

theorem runSteps_ok (b : Board) (L : List (Nat × Nat × String)) (w : World)
    (h : ∀ i, i < L.length → (b.xfer (w.txn + i)).status = ESP_OK) :
    runSteps b L w = (ESP_OK, ⟨w.trace ++ stepsEvents L, w.txn + L.length⟩) := by
  induction L generalizing w with
  | nil => simp [runSteps, stepsEvents]
  | cons s rest ih =>
    have h0 : (b.xfer w.txn).status = ESP_OK := by simpa using h 0 (by simp)
    have hrest : ∀ i, i < rest.length →
        (b.xfer ((writeStep b s.1 s.2.1 w).2.txn + i)).status = ESP_OK := by
      intro i hi
      have := h (i + 1) (by simpa using hi)
      simpa [writeStep, Nat.add_assoc, Nat.add_comm 1 i] using this
    have hc : ¬ (writeStep b s.1 s.2.1 w).1 ≠ ESP_OK := by simp [writeStep, h0]
    rw [runSteps, if_neg hc, ih _ hrest]
    simp [writeStep, stepsEvents, Nat.add_assoc, Nat.add_comm 1]

theorem runSteps_fail (b : Board) (L : List (Nat × Nat × String)) (w : World) (j : Nat)
    (e : esp_err_t) (msg : String) (hj : (L.get? j).map (fun s => s.2.2) = some msg)
    (he : e ≠ ESP_OK)
    (hprev : ∀ i, i < j → (b.xfer (w.txn + i)).status = ESP_OK)
    (hfail : (b.xfer (w.txn + j)).status = e) :
    runSteps b L w =
      (e, ⟨w.trace ++ stepsEvents (L.take (j + 1)) ++ [.ESP_LOGE TAG msg [e]],
        w.txn + (j + 1)⟩) := by
  induction L generalizing w j with
  | nil => simp at hj
  | cons s rest ih =>
    cases j with
    | zero =>
      have hs : s.2.2 = msg := by simpa using hj
      have hc : (writeStep b s.1 s.2.1 w).1 ≠ ESP_OK := by
        have : (b.xfer w.txn).status = e := by simpa using hfail
        simpa [writeStep, this] using he
      have h1 : (writeStep b s.1 s.2.1 w).1 = e := by simpa [writeStep] using hfail
      rw [runSteps, if_pos hc, h1, hs]
      simp [writeStep, stepsEvents, World.emit]
    | succ j =>
      have h0 : (b.xfer w.txn).status = ESP_OK := by simpa using hprev 0 (by simp)
      have hc : ¬ (writeStep b s.1 s.2.1 w).1 ≠ ESP_OK := by simp [writeStep, h0]
      have hprev2 : ∀ i, i < j →
          (b.xfer ((writeStep b s.1 s.2.1 w).2.txn + i)).status = ESP_OK := by
        intro i hi
        have := hprev (i + 1) (by omega)
        simpa [writeStep, Nat.add_assoc, Nat.add_comm 1 i] using this
      have hfail2 : (b.xfer ((writeStep b s.1 s.2.1 w).2.txn + j)).status = e := by
        simpa [writeStep, Nat.add_assoc, Nat.add_comm 1 j] using hfail
      have hj2 : (rest.get? j).map (fun s => s.2.2) = some msg := by simpa using hj
      rw [runSteps, if_neg hc, ih _ j hj2 hprev2 hfail2]
      simp [writeStep, stepsEvents, Nat.add_assoc, Nat.add_comm 1]

theorem busTrace_append (s t : List Event) : busTrace (s ++ t) = busTrace s ++ busTrace t := by
  simp [busTrace]

theorem busTrace_stepsEvents (L : List (Nat × Nat × String)) :
    busTrace (stepsEvents L) = stepsFrames L := by
  induction L with
  | nil => rfl
  | cons s rest ih =>
    simp only [stepsFrames] at ih
    simp [stepsEvents, stepsFrames, busTrace, List.filter_cons, Event.isTransaction, frame]
    simpa [busTrace] using ih

theorem delays_append (s t : List Event) : delays (s ++ t) = delays s ++ delays t := by
  induction s with
  | nil => rfl
  | cons a rest ih => cases a <;> simp [delays, ih]

theorem delays_stepsEvents (L : List (Nat × Nat × String)) :
    delays (stepsEvents L) = List.replicate L.length 100 := by
  induction L with
  | nil => rfl
  | cons s rest ih => simp [stepsEvents, delays, frame, ih, List.replicate_succ]

theorem initTransactions_eq : initTransactions = identityRead :: stepsFrames configSteps := by
  simp [initTransactions, stepsFrames, configSteps]

theorem added_append (w : World) (ev : List Event) (n : Nat) :
    added w ⟨w.trace ++ ev, n⟩ = ev := by
  simp [added]

theorem runSteps_settled (b : Board) (L : List (Nat × Nat × String)) (w : World) :
    ∃ ev, (runSteps b L w).2.trace = w.trace ++ ev ∧ writesSettled ev = true := by
  induction L generalizing w with
  | nil => exact ⟨[], by simp [runSteps], rfl⟩
  | cons s rest ih =>
    by_cases hc : (writeStep b s.1 s.2.1 w).1 ≠ ESP_OK
    · refine ⟨[frame s.1 s.2.1, .vTaskDelay ⟨100⟩,
        .ESP_LOGE TAG s.2.2 [(writeStep b s.1 s.2.1 w).1]], ?_, ?_⟩
      · rw [runSteps, if_pos hc]
        simp [writeStep, World.emit]
      · simp [writesSettled, frame, tempo, pdMS_TO_TICKS]
    · obtain ⟨ev, h1, h2⟩ := ih (writeStep b s.1 s.2.1 w).2
      refine ⟨frame s.1 s.2.1 :: .vTaskDelay ⟨100⟩ :: ev, ?_, ?_⟩
      · rw [runSteps, if_neg hc, h1]
        simp [writeStep]
      · simp [writesSettled, frame, tempo, pdMS_TO_TICKS, h2]

theorem MPU6500_Setup_ok (b : Board) (w : World) (h0 : (b.xfer w.txn).status = ESP_OK)
    (hid : (b.xfer w.txn).byte 0 = 0x68 ∨ (b.xfer w.txn).byte 0 = 0x70)
    (hw : ∀ i, i < 9 → (b.xfer (w.txn + 1 + i)).status = ESP_OK) :
    MPU6500_Setup b w =
      (ESP_OK, ⟨w.trace ++ identityRead :: identityLog ((b.xfer w.txn).byte 0) ::
        .vTaskDelay ⟨100⟩ :: stepsEvents configSteps, w.txn + 10⟩) := by
  have h0n : ¬ (b.xfer w.txn).status ≠ ESP_OK := by simp [h0]
  rw [MPU6500_Setup_eq, if_neg h0n, if_pos hid.symm, runSteps_ok]
  · simp [afterIdentityRead, World.emit, identityLog, configSteps]
  · intro i hi
    have := hw i (by simpa [configSteps] using hi)
    simpa [afterIdentityRead, World.emit] using this

theorem MPU6500_Setup_fail_write (b : Board) (w : World) (j : Nat) (e : esp_err_t)
    (msg : String) (hj : (configSteps.get? j).map (fun s => s.2.2) = some msg)
    (he : e ≠ ESP_OK) (h0 : (b.xfer w.txn).status = ESP_OK)
    (hid : (b.xfer w.txn).byte 0 = 0x68 ∨ (b.xfer w.txn).byte 0 = 0x70)
    (hprev : ∀ i, i < j → (b.xfer (w.txn + 1 + i)).status = ESP_OK)
    (hfail : (b.xfer (w.txn + 1 + j)).status = e) :
    MPU6500_Setup b w =
      (e, ⟨w.trace ++ identityRead :: identityLog ((b.xfer w.txn).byte 0) ::
        .vTaskDelay ⟨100⟩ :: (stepsEvents (configSteps.take (j + 1)) ++
          [.ESP_LOGE TAG msg [e]]), w.txn + 1 + (j + 1)⟩) := by
  have h0n : ¬ (b.xfer w.txn).status ≠ ESP_OK := by simp [h0]
  rw [MPU6500_Setup_eq, if_neg h0n, if_pos hid.symm, runSteps_fail b _ _ j e msg hj he]
  · simp [afterIdentityRead, World.emit, identityLog]
  · intro i hi
    simpa [afterIdentityRead, World.emit] using hprev i hi
  · simpa [afterIdentityRead, World.emit] using hfail

theorem MPU6500_Setup_fail_read (b : Board) (w : World)
    (h0 : (b.xfer w.txn).status ≠ ESP_OK) :
    MPU6500_Setup b w =
      ((b.xfer w.txn).status, ⟨w.trace ++ [identityRead,
        .ESP_LOGE TAG "Falha ao ler WHO_AM_I: %s" [(b.xfer w.txn).status]], w.txn + 1⟩) := by
  rw [MPU6500_Setup_eq, if_pos h0]
  simp [afterIdentityRead, World.emit]

theorem MPU6500_Setup_mismatch (b : Board) (w : World)
    (h0 : (b.xfer w.txn).status = ESP_OK)
    (hid : ¬ ((b.xfer w.txn).byte 0 = 0x68 ∨ (b.xfer w.txn).byte 0 = 0x70)) :
    MPU6500_Setup b w =
      (ESP_OK, ⟨w.trace ++ [identityRead, .ESP_LOGE TAG "MPU Com Defeito! %s" [ESP_OK]],
        w.txn + 1⟩) := by
  have h0n : ¬ (b.xfer w.txn).status ≠ ESP_OK := by simp [h0]
  have hid2 : ¬ ((b.xfer w.txn).byte 0 = 0x70 ∨ (b.xfer w.txn).byte 0 = 0x68) :=
    fun h => hid h.symm
  rw [MPU6500_Setup_eq, if_neg h0n, if_neg hid2, h0]
  simp [afterIdentityRead, World.emit]

theorem MPU_Init_eq (b : Board) :
    MPU_Init b World.init =
      if b.install ≠ ESP_OK then
        (b.install, ⟨installEvents ++
          [.ESP_LOGE TAG "Falha na inicialização do I2C: %s" [b.install]], 0⟩)
      else if (MPU6500_Setup b beforeSetup).1 ≠ ESP_OK then
        ((MPU6500_Setup b beforeSetup).1, (MPU6500_Setup b beforeSetup).2.emit
          (.ESP_LOGE TAG "Falha ao acordar o MPU6500: %s" [(MPU6500_Setup b beforeSetup).1]))
      else
        (ESP_OK, (MPU6500_Setup b beforeSetup).2.emit
          (.ESP_LOGI TAG "MPU6500 acordado com sucesso!" [])) := by
  have hw : ESP_LOGI TAG "I2C inicializado com sucesso!" [] (i2c_master_init b World.init).2
      = beforeSetup := by
    simp [ESP_LOGI, i2c_master_init, i2c_param_config, i2c_driver_install, World.emit,
      World.init, beforeSetup, installEvents, I2C_MASTER_NUM, I2C_MASTER_SDA_IO,
      I2C_MASTER_SCL_IO, I2C_MASTER_FREQ_HZ, I2C_MASTER_RX_BUF_DISABLE,
      I2C_MASTER_TX_BUF_DISABLE]
  have hs : (i2c_master_init b World.init).1 = b.install := rfl
  unfold MPU_Init
  simp only [hw, hs]
  by_cases h : b.install ≠ ESP_OK
  · rw [if_pos h, if_pos h]
    simp [ESP_LOGE, i2c_master_init, i2c_param_config, i2c_driver_install, World.emit,
      World.init, installEvents, I2C_MASTER_NUM, I2C_MASTER_SDA_IO,
      I2C_MASTER_SCL_IO, I2C_MASTER_FREQ_HZ, I2C_MASTER_RX_BUF_DISABLE,
      I2C_MASTER_TX_BUF_DISABLE]
  · rw [if_neg h, if_neg h]
    rfl

theorem MPU_Init_ok (b : Board) (hinst : b.install = ESP_OK)
    (hread : (b.xfer 0).status = ESP_OK)
    (hid : (b.xfer 0).byte 0 = 0x68 ∨ (b.xfer 0).byte 0 = 0x70)
    (hw : ∀ k, 1 ≤ k → k ≤ 9 → (b.xfer k).status = ESP_OK) :
    MPU_Init b World.init =
      (ESP_OK, ⟨beforeSetup.trace ++ identityRead :: identityLog ((b.xfer 0).byte 0) ::
        .vTaskDelay ⟨100⟩ :: (stepsEvents configSteps ++
          [.ESP_LOGI TAG "MPU6500 acordado com sucesso!" []]), 10⟩) := by
  have hs := MPU6500_Setup_ok b beforeSetup hread hid (by
    intro i hi
    have := hw (i + 1) (by omega) (by omega)
    simpa [beforeSetup, Nat.add_comm] using this)
  have hi : ¬ b.install ≠ ESP_OK := by simp [hinst]
  rw [MPU_Init_eq, if_neg hi, hs]
  simp [World.emit, beforeSetup]

theorem MPU_Init_mismatch (b : Board) (hinst : b.install = ESP_OK)
    (hread : (b.xfer 0).status = ESP_OK)
    (hid : ¬ ((b.xfer 0).byte 0 = 0x68 ∨ (b.xfer 0).byte 0 = 0x70)) :
    MPU_Init b World.init =
      (ESP_OK, ⟨beforeSetup.trace ++ [identityRead,
        .ESP_LOGE TAG "MPU Com Defeito! %s" [ESP_OK],
        .ESP_LOGI TAG "MPU6500 acordado com sucesso!" []], 1⟩) := by
  have hs := MPU6500_Setup_mismatch b beforeSetup hread hid
  have hi : ¬ b.install ≠ ESP_OK := by simp [hinst]
  rw [MPU_Init_eq, if_neg hi, hs]
  simp [World.emit, beforeSetup]

theorem busTrace_beforeSetup : busTrace beforeSetup.trace = [] := by
  simp [busTrace, beforeSetup, installEvents, Event.isTransaction]

/-- C5: when the driver installs, the identity register reads 0x68 or 0x70 and every write
succeeds, `MPU_Init` returns `ESP_OK` and the device bus trace is exactly the identity read
followed by the nine write frames to address 0x68 in the documented order, ten transactions
in total. -/
theorem MPU_Init_success_trace (b : Board) (hinst : b.install = ESP_OK)
    (hread : (b.xfer 0).status = ESP_OK)
    (hid : (b.xfer 0).byte 0 = 0x68 ∨ (b.xfer 0).byte 0 = 0x70)
    (hw : ∀ k, 1 ≤ k → k ≤ 9 → (b.xfer k).status = ESP_OK) :
    (MPU_Init b World.init).1 = ESP_OK ∧
    busTrace (MPU_Init b World.init).2.trace =
      [.i2c_master_write_read_device 0 0x68 [0x75] 1 ⟨1000⟩,
       .i2c_master_write_to_device 0 0x68 [0x6B, 0x80] ⟨1000⟩,
       .i2c_master_write_to_device 0 0x68 [0x68, 0x07] ⟨1000⟩,
       .i2c_master_write_to_device 0 0x68 [0x6A, 0x01] ⟨1000⟩,
       .i2c_master_write_to_device 0 0x68 [0x6B, 0x01] ⟨1000⟩,
       .i2c_master_write_to_device 0 0x68 [0x1A, 0x04] ⟨1000⟩,
       .i2c_master_write_to_device 0 0x68 [0x1B, 0x00] ⟨1000⟩,
       .i2c_master_write_to_device 0 0x68 [0x1C, 0x00] ⟨1000⟩,
       .i2c_master_write_to_device 0 0x68 [0x1D, 0x04] ⟨1000⟩,
       .i2c_master_write_to_device 0 0x68 [0x19, 0x09] ⟨1000⟩] ∧
    (busTrace (MPU_Init b World.init).2.trace).length = 10 ∧
    (MPU_Init b World.init).2.txn = 10 := by
  rw [MPU_Init_ok b hinst hread hid hw]
  have hb : busTrace (beforeSetup.trace ++ identityRead :: identityLog ((b.xfer 0).byte 0) ::
      .vTaskDelay ⟨100⟩ :: (stepsEvents configSteps ++
        [.ESP_LOGI TAG "MPU6500 acordado com sucesso!" []])) = initTransactions := by
    rw [busTrace_append, busTrace_beforeSetup, initTransactions_eq,
      ← busTrace_stepsEvents configSteps]
    simp [busTrace, identityRead, identityLog, Event.isTransaction]
  refine ⟨rfl, ?_, ?_, rfl⟩
  · rw [hb]; rfl
  · rw [hb]; rfl

/-- C5 at a board where everything succeeds and the identity register reads 0x68. -/
theorem MPU_Init_success_trace_witness :
    goodBoard.install = ESP_OK ∧ (goodBoard.xfer 0).status = ESP_OK ∧
    (MPU_Init goodBoard World.init).1 = ESP_OK ∧
    (busTrace (MPU_Init goodBoard World.init).2.trace).length = 10 :=
  ⟨rfl, rfl,
    (MPU_Init_success_trace goodBoard rfl rfl (Or.inl rfl) (fun _ _ _ => rfl)).1,
    (MPU_Init_success_trace goodBoard rfl rfl (Or.inl rfl) (fun _ _ _ => rfl)).2.2.1⟩

/-- C1: evaluation at the identity bytes 0x00 and 0xFF, with the driver installed and the
read successful.  The identity check fails (the run logs the defect and issues no write),
yet `MPU6500_Setup` and `MPU_Init` return `ESP_OK`, where an error result is expected. -/
theorem MPU_Init_identity_mismatch_returns_ok :
    (MPU6500_Setup (boardReading 0x00) beforeSetup).1 = ESP_OK ∧
    (MPU_Init (boardReading 0x00) World.init).1 = ESP_OK ∧
    (MPU_Init (boardReading 0xFF) World.init).1 = ESP_OK ∧
    Event.ESP_LOGE TAG "MPU Com Defeito! %s" [ESP_OK] ∈
      (MPU_Init (boardReading 0x00) World.init).2.trace := by
  have h0 : ¬ (((boardReading 0x00).xfer 0).byte 0 = 0x68 ∨
      ((boardReading 0x00).xfer 0).byte 0 = 0x70) := by
    simp [boardReading, Reply.byte]
  have hF : ¬ (((boardReading 0xFF).xfer 0).byte 0 = 0x68 ∨
      ((boardReading 0xFF).xfer 0).byte 0 = 0x70) := by
    simp [boardReading, Reply.byte]
  refine ⟨?_, ?_, ?_, ?_⟩
  · rw [MPU6500_Setup_mismatch (boardReading 0x00) beforeSetup rfl h0]
  · rw [MPU_Init_mismatch (boardReading 0x00) rfl rfl h0]
  · rw [MPU_Init_mismatch (boardReading 0xFF) rfl rfl hF]
  · rw [MPU_Init_mismatch (boardReading 0x00) rfl rfl h0]
    simp

/-- C7: when the identity read succeeds with a value other than 0x68 and 0x70,
`MPU6500_Setup` adds no register write to the trace and its only device transaction is the
identity read; the device bus trace of `MPU_Init` is then that single read. -/
theorem identity_mismatch_no_write (b : Board) :
    (∀ w : World, (b.xfer w.txn).status = ESP_OK →
      (b.xfer w.txn).byte 0 ≠ 0x68 → (b.xfer w.txn).byte 0 ≠ 0x70 →
      (∀ ev ∈ added w (MPU6500_Setup b w).2, ev.isWrite = false) ∧
      busTrace (added w (MPU6500_Setup b w).2) =
        [.i2c_master_write_read_device 0 0x68 [0x75] 1 ⟨1000⟩]) ∧
    (b.install = ESP_OK → (b.xfer 0).status = ESP_OK →
      (b.xfer 0).byte 0 ≠ 0x68 → (b.xfer 0).byte 0 ≠ 0x70 →
      busTrace (MPU_Init b World.init).2.trace =
        [.i2c_master_write_read_device 0 0x68 [0x75] 1 ⟨1000⟩]) := by
  constructor
  · intro w h0 h1 h2
    have hid : ¬ ((b.xfer w.txn).byte 0 = 0x68 ∨ (b.xfer w.txn).byte 0 = 0x70) := by
      rintro (h | h)
      · exact h1 h
      · exact h2 h
    rw [MPU6500_Setup_mismatch b w h0 hid, added_append]
    simp [busTrace, identityRead, Event.isTransaction, Event.isWrite]
  · intro hinst h0 h1 h2
    have hid : ¬ ((b.xfer 0).byte 0 = 0x68 ∨ (b.xfer 0).byte 0 = 0x70) := by
      rintro (h | h)
      · exact h1 h
      · exact h2 h
    rw [MPU_Init_mismatch b hinst h0 hid, busTrace_append, busTrace_beforeSetup]
    simp [busTrace, identityRead, Event.isTransaction]

/-- C7 at a board whose identity register reads 0x00. -/
theorem identity_mismatch_no_write_witness :
    (boardReading 0x00).install = ESP_OK ∧ ((boardReading 0x00).xfer 0).byte 0 ≠ 0x68 ∧
    busTrace (MPU_Init (boardReading 0x00) World.init).2.trace =
      [.i2c_master_write_read_device 0 0x68 [0x75] 1 ⟨1000⟩] :=
  ⟨rfl, by decide,
    (identity_mismatch_no_write (boardReading 0x00)).2 rfl rfl (by decide) (by decide)⟩

theorem configSteps_msg (j : Nat) (hj : j < 9) :
    ∃ msg, (configSteps.get? j).map (fun s => s.2.2) = some msg := by
  interval_cases j <;> exact ⟨_, rfl⟩

theorem take_initTransactions (j : Nat) :
    initTransactions.take (j + 1) = identityRead :: stepsFrames (configSteps.take j) := by
  rw [initTransactions_eq, List.take_succ_cons, stepsFrames, stepsFrames, List.map_take]

/-- C2: `MPU_Init` is fail-fast.  Step 0 installs the driver, step 1 reads the identity
register, steps 2 to 10 are the nine register writes.  If every step before step `N`
succeeds (with an accepted identity byte) and the operation of step `N` fails with `e`,
then `MPU_Init` returns exactly `e` and the device transactions issued are exactly those of
steps 1 to `N`: none of a later step. -/
theorem MPU_Init_fail_fast (b : Board) (N : Nat) (e : esp_err_t) (hN : N ≤ 10)
    (he : e ≠ ESP_OK) (hprev : ∀ k, k < N → b.stepStatus k = ESP_OK)
    (hid : 2 ≤ N → (b.xfer 0).byte 0 = 0x68 ∨ (b.xfer 0).byte 0 = 0x70)
    (hfail : b.stepStatus N = e) :
    (MPU_Init b World.init).1 = e ∧
    busTrace (MPU_Init b World.init).2.trace = initTransactions.take N ∧
    (MPU_Init b World.init).2.txn = N := by
  rcases N with _ | N
  · -- the installation fails
    have hi : b.install ≠ ESP_OK := by
      have : b.install = e := by simpa [Board.stepStatus] using hfail
      rw [this]; exact he
    have hie : b.install = e := by simpa [Board.stepStatus] using hfail
    rw [MPU_Init_eq, if_pos hi]
    refine ⟨hie, ?_, rfl⟩
    simp [busTrace, installEvents, Event.isTransaction]
  · have hinst : ¬ b.install ≠ ESP_OK := by
      have := hprev 0 (by omega)
      simpa [Board.stepStatus] using this
    rcases N with _ | j
    · -- the identity read fails
      have hre : (b.xfer 0).status = e := by simpa [Board.stepStatus] using hfail
      have hr : (b.xfer beforeSetup.txn).status ≠ ESP_OK := by
        show (b.xfer 0).status ≠ ESP_OK
        rw [hre]; exact he
      have hs := MPU6500_Setup_fail_read b beforeSetup hr
      have hne : (MPU6500_Setup b beforeSetup).1 ≠ ESP_OK := by rw [hs]; exact hr
      rw [MPU_Init_eq, if_neg hinst, if_pos hne, hs]
      refine ⟨hre, ?_, rfl⟩
      simp only [World.emit, List.append_assoc]
      rw [busTrace_append, busTrace_beforeSetup]
      simp [busTrace, identityRead, initTransactions, Event.isTransaction]
    · -- the write of configuration step `j` fails
      have hj : j < 9 := by omega
      obtain ⟨msg, hmsg⟩ := configSteps_msg j hj
      have hread : (b.xfer beforeSetup.txn).status = ESP_OK := by
        have := hprev 1 (by omega)
        simpa [Board.stepStatus] using this
      have hp : ∀ i, i < j → (b.xfer (beforeSetup.txn + 1 + i)).status = ESP_OK := by
        intro i hi
        have := hprev (i + 2) (by omega)
        simpa [Board.stepStatus, beforeSetup, Nat.add_comm] using this
      have hf : (b.xfer (beforeSetup.txn + 1 + j)).status = e := by
        simpa [Board.stepStatus, beforeSetup, Nat.add_comm] using hfail
      have hs := MPU6500_Setup_fail_write b beforeSetup j e msg hmsg he hread
        (hid (by omega)) hp hf
      have hne : (MPU6500_Setup b beforeSetup).1 ≠ ESP_OK := by rw [hs]; exact he
      rw [MPU_Init_eq, if_neg hinst, if_pos hne, hs]
      refine ⟨rfl, ?_, ?_⟩
      · simp only [World.emit, List.append_assoc]
        rw [busTrace_append, busTrace_beforeSetup, take_initTransactions,
          ← busTrace_stepsEvents]
        simp [busTrace, identityRead, identityLog, Event.isTransaction]
      · simp [World.emit, beforeSetup]
        omega

/-- C2 at a board whose fourth register write (step 5) fails with the error code 263. -/
theorem MPU_Init_fail_fast_witness :
    (boardFailingAt 4 263).stepStatus 5 = 263 ∧
    (MPU_Init (boardFailingAt 4 263) World.init).1 = 263 ∧
    busTrace (MPU_Init (boardFailingAt 4 263) World.init).2.trace =
      initTransactions.take 5 :=
  ⟨rfl,
    (MPU_Init_fail_fast (boardFailingAt 4 263) 5 263 (by decide) (by decide)
      (by intro k hk; interval_cases k <;> rfl) (fun _ => Or.inr rfl) rfl).1,
    (MPU_Init_fail_fast (boardFailingAt 4 263) 5 263 (by decide) (by decide)
      (by intro k hk; interval_cases k <;> rfl) (fun _ => Or.inr rfl) rfl).2.1⟩

theorem delays_beforeSetup : delays beforeSetup.trace = [] := by
  simp [delays, beforeSetup, installEvents]

/-- C9: in every run of `MPU6500_Setup`, each register write that is issued has a 100 ms
delay as the very next event, before any later transaction or log line; and when the
driver installs, the identity is accepted and every write succeeds, `MPU_Init` waits ten
times 100 ms, 1000 ms in total. -/
theorem MPU6500_Setup_settle_delays (b : Board) :
    (∀ w : World, writesSettled (added w (MPU6500_Setup b w).2) = true) ∧
    (b.install = ESP_OK → (b.xfer 0).status = ESP_OK →
      ((b.xfer 0).byte 0 = 0x68 ∨ (b.xfer 0).byte 0 = 0x70) →
      (∀ k, 1 ≤ k → k ≤ 9 → (b.xfer k).status = ESP_OK) →
      delays (MPU_Init b World.init).2.trace = List.replicate 10 100 ∧
      (delays (MPU_Init b World.init).2.trace).sum = 1000) := by
  constructor
  · intro w
    rw [MPU6500_Setup_eq]
    by_cases h0 : (b.xfer w.txn).status ≠ ESP_OK
    · rw [if_pos h0]
      simp [added, afterIdentityRead, World.emit, writesSettled, identityRead]
    · rw [if_neg h0]
      by_cases hid : (b.xfer w.txn).byte 0 = 0x70 ∨ (b.xfer w.txn).byte 0 = 0x68
      · rw [if_pos hid]
        obtain ⟨ev, h1, h2⟩ := runSteps_settled b configSteps
          (((afterIdentityRead w).emit
            (.ESP_LOGI TAG "MPU6500 detectado com sucesso! WHO_AM_I: 0x%02X"
              [((b.xfer w.txn).byte 0 : Int)])).emit (.vTaskDelay ⟨100⟩))
        simp only [added, h1]
        simp [afterIdentityRead, World.emit, writesSettled, identityRead, h2]
      · rw [if_neg hid]
        simp [added, afterIdentityRead, World.emit, writesSettled, identityRead]
  · intro hinst hread hid hw
    have hd : delays (MPU_Init b World.init).2.trace = List.replicate 10 100 := by
      rw [MPU_Init_ok b hinst hread hid hw]
      simp only []
      rw [delays_append, delays_beforeSetup]
      simp only [delays, identityRead, identityLog, List.nil_append]
      rfl
    rw [hd]
    exact ⟨rfl, rfl⟩

/-- C9 at a board where everything succeeds and the identity register reads 0x68. -/
theorem MPU6500_Setup_settle_delays_witness :
    goodBoard.install = ESP_OK ∧
    writesSettled (added World.init (MPU6500_Setup goodBoard World.init).2) = true ∧
    (delays (MPU_Init goodBoard World.init).2.trace).sum = 1000 :=
  ⟨rfl, (MPU6500_Setup_settle_delays goodBoard).1 World.init,
    ((MPU6500_Setup_settle_delays goodBoard).2 rfl rfl (Or.inl rfl) (fun _ _ _ => rfl)).2⟩

/-! ## Properties of reading and converting a sample -/

theorem MPU_ReadAccelerometer_eq (b : Board) (x y z : Int) (w : World) :
    MPU_ReadAccelerometer b x y z w =
      (if (b.xfer w.txn).status ≠ ESP_OK then ((b.xfer w.txn).status, x, y, z)
       else (ESP_OK, combine ((b.xfer w.txn).byte 0) ((b.xfer w.txn).byte 1),
          combine ((b.xfer w.txn).byte 2) ((b.xfer w.txn).byte 3),
          combine ((b.xfer w.txn).byte 4) ((b.xfer w.txn).byte 5)),
        ⟨w.trace ++ [.i2c_master_write_read_device 0 0x68 [0x3B] 6 ⟨1000⟩], w.txn + 1⟩) := by
  have hr : List.range 6 = [0, 1, 2, 3, 4, 5] := by decide
  unfold MPU_ReadAccelerometer
  simp only [i2c_master_write_read_device, hr, List.map_cons, List.map_nil]
  by_cases h : (b.xfer w.txn).status ≠ ESP_OK
  · rw [if_pos h, if_pos h]; rfl
  · rw [if_neg h, if_neg h]; rfl

/-- C6: every call of `MPU_ReadAccelerometer` adds exactly one event to the trace, a combined
write-then-read to address 0x68 that writes the single byte 0x3B and reads 6 bytes with a
1000 ms timeout; when that transaction fails with `e` the call returns `e`, leaves the three
outputs as they were, and has issued nothing else. -/
theorem MPU_ReadAccelerometer_one_transaction (b : Board) (x y z : Int) (w : World) :
    added w (MPU_ReadAccelerometer b x y z w).2 =
      [.i2c_master_write_read_device 0 0x68 [0x3B] 6 ⟨1000⟩] ∧
    (MPU_ReadAccelerometer b x y z w).2.txn = w.txn + 1 ∧
    (∀ e, e ≠ ESP_OK → (b.xfer w.txn).status = e →
      (MPU_ReadAccelerometer b x y z w).1 = (e, x, y, z)) := by
  rw [MPU_ReadAccelerometer_eq]
  refine ⟨added_append _ _ _, rfl, ?_⟩
  intro e he hs
  have h : (b.xfer w.txn).status ≠ ESP_OK := by rw [hs]; exact he
  rw [if_pos h, hs]

/-- C6 at a board whose first transaction fails with the error code 263. -/
theorem MPU_ReadAccelerometer_one_transaction_witness :
    ((boardFailingAt 0 263).xfer 0).status = 263 ∧
    (MPU_ReadAccelerometer (boardFailingAt 0 263) 1 2 3 World.init).1 = (263, 1, 2, 3) :=
  ⟨rfl, (MPU_ReadAccelerometer_one_transaction (boardFailingAt 0 263) 1 2 3 World.init).2.2
    263 (by decide) rfl⟩

theorem combine_eq (hi lo : Nat) (hhi : hi < 256) (hlo : lo < 256) :
    combine hi lo = twosComplement16 (hi * 256 + lo) ∧ (hi <<< 8) ||| lo = hi * 256 + lo := by
  have hor : (hi <<< 8) ||| lo = hi * 256 + lo := by
    have := Nat.mul_add_lt_is_or (i := 8) (b := lo) (by simpa using hlo) hi
    rw [Nat.shiftLeft_eq, Nat.mul_comm hi (2 ^ 8), ← this, Nat.mul_comm]
  refine ⟨?_, hor⟩
  unfold combine int16_t_of_int twosComplement16
  rw [hor]
  split_ifs with h <;> push_cast <;> omega

/-- C3: after a successful transaction `MPU_ReadAccelerometer` returns `ESP_OK` and each axis
is the signed 16-bit two's-complement value of the pattern `(high << 8) | low` built from its
two bytes, high byte first: x from bytes 0 and 1, y from bytes 2 and 3, z from bytes 4
and 5. -/
theorem MPU_ReadAccelerometer_values (b : Board) (x y z : Int) (w : World)
    (h : (b.xfer w.txn).status = ESP_OK) :
    (MPU_ReadAccelerometer b x y z w).1 =
      (ESP_OK,
        twosComplement16 (((b.xfer w.txn).byte 0 <<< 8) ||| (b.xfer w.txn).byte 1),
        twosComplement16 (((b.xfer w.txn).byte 2 <<< 8) ||| (b.xfer w.txn).byte 3),
        twosComplement16 (((b.xfer w.txn).byte 4 <<< 8) ||| (b.xfer w.txn).byte 5)) := by
  have hb : ∀ i, (b.xfer w.txn).byte i < 256 := fun i => Nat.mod_lt _ (by norm_num)
  have hn : ¬ (b.xfer w.txn).status ≠ ESP_OK := by simp [h]
  rw [MPU_ReadAccelerometer_eq]
  simp only [if_neg hn]
  rw [(combine_eq _ _ (hb 0) (hb 1)).1, (combine_eq _ _ (hb 2) (hb 3)).1,
    (combine_eq _ _ (hb 4) (hb 5)).1, (combine_eq _ _ (hb 0) (hb 1)).2,
    (combine_eq _ _ (hb 2) (hb 3)).2, (combine_eq _ _ (hb 4) (hb 5)).2]

/-- C3 at the bytes 0x40, 0x00, 0x00, 0x00, 0xC0, 0x00: x = 16384, y = 0, z = -16384. -/
theorem MPU_ReadAccelerometer_values_witness :
    (sampleBoard.xfer 0).status = ESP_OK ∧
    (MPU_ReadAccelerometer sampleBoard 7 7 7 World.init).1 = (ESP_OK, 16384, 0, -16384) :=
  ⟨rfl, by
    rw [MPU_ReadAccelerometer_values sampleBoard 7 7 7 World.init rfl]
    decide⟩

theorem combine_encodeBE16 (v : Int) (h1 : -32768 ≤ v) (h2 : v ≤ 32767) :
    (encodeBE16 v).1 < 256 ∧ (encodeBE16 v).2 < 256 ∧
      combine (encodeBE16 v).1 (encodeBE16 v).2 = v := by
  have hhi : (encodeBE16 v).1 < 256 := by
    simp only [encodeBE16]; omega
  have hlo : (encodeBE16 v).2 < 256 := by
    simp only [encodeBE16]; omega
  refine ⟨hhi, hlo, ?_⟩
  rw [(combine_eq _ _ hhi hlo).1]
  simp only [encodeBE16, twosComplement16]
  split_ifs with h <;> omega

theorem combine_injective (h1 l1 h2 l2 : Nat) (a1 : h1 < 256) (a2 : l1 < 256)
    (a3 : h2 < 256) (a4 : l2 < 256) (heq : combine h1 l1 = combine h2 l2) :
    h1 = h2 ∧ l1 = l2 := by
  rw [(combine_eq _ _ a1 a2).1, (combine_eq _ _ a3 a4).1] at heq
  simp only [twosComplement16] at heq
  split_ifs at heq <;> omega

theorem MPU_ReadAccelerometer_axes (b : Board) (x y z : Int) (w : World)
    (h : (b.xfer w.txn).status = ESP_OK) :
    (MPU_ReadAccelerometer b x y z w).1 =
      (ESP_OK, combine ((b.xfer w.txn).byte 0) ((b.xfer w.txn).byte 1),
        combine ((b.xfer w.txn).byte 2) ((b.xfer w.txn).byte 3),
        combine ((b.xfer w.txn).byte 4) ((b.xfer w.txn).byte 5)) := by
  have hn : ¬ (b.xfer w.txn).status ≠ ESP_OK := by simp [h]
  rw [MPU_ReadAccelerometer_eq]
  simp only [if_neg hn]

theorem byte_lt (r : Reply) (i : Nat) : r.byte i < 256 := Nat.mod_lt _ (by norm_num)

theorem boardOfBytes_byte (d : List Nat) (n i : Nat) (h : d.getD i 0 < 256) :
    ((boardOfBytes d).xfer n).byte i = d.getD i 0 := Nat.mod_eq_of_lt h

/-- C10: the axis byte assembly of `MPU_ReadAccelerometer` inverts big-endian two's-complement
encoding.  When a successful read returns, for each axis, the high byte and then the low byte
of the encoding of a signed 16-bit value, `MPU_ReadAccelerometer` outputs these three values;
two successful reads that output the same value on an axis received the same byte pair for
that axis; so on each axis every value from -32768 to 32767 is the output for exactly one
byte pair. -/
theorem MPU_ReadAccelerometer_inverts_encodeBE16 :
    (∀ (b : Board) (x y z : Int) (w : World) (vx vy vz : Int),
      (b.xfer w.txn).status = ESP_OK →
      -32768 ≤ vx → vx ≤ 32767 → -32768 ≤ vy → vy ≤ 32767 → -32768 ≤ vz → vz ≤ 32767 →
      (b.xfer w.txn).byte 0 = (encodeBE16 vx).1 → (b.xfer w.txn).byte 1 = (encodeBE16 vx).2 →
      (b.xfer w.txn).byte 2 = (encodeBE16 vy).1 → (b.xfer w.txn).byte 3 = (encodeBE16 vy).2 →
      (b.xfer w.txn).byte 4 = (encodeBE16 vz).1 → (b.xfer w.txn).byte 5 = (encodeBE16 vz).2 →
      (MPU_ReadAccelerometer b x y z w).1 = (ESP_OK, vx, vy, vz)) ∧
    (∀ (b c : Board) (x y z x2 y2 z2 : Int) (w w2 : World),
      (b.xfer w.txn).status = ESP_OK → (c.xfer w2.txn).status = ESP_OK →
      ((MPU_ReadAccelerometer b x y z w).1.2.1 = (MPU_ReadAccelerometer c x2 y2 z2 w2).1.2.1 →
        (b.xfer w.txn).byte 0 = (c.xfer w2.txn).byte 0 ∧
        (b.xfer w.txn).byte 1 = (c.xfer w2.txn).byte 1) ∧
      ((MPU_ReadAccelerometer b x y z w).1.2.2.1 =
          (MPU_ReadAccelerometer c x2 y2 z2 w2).1.2.2.1 →
        (b.xfer w.txn).byte 2 = (c.xfer w2.txn).byte 2 ∧
        (b.xfer w.txn).byte 3 = (c.xfer w2.txn).byte 3) ∧
      ((MPU_ReadAccelerometer b x y z w).1.2.2.2 =
          (MPU_ReadAccelerometer c x2 y2 z2 w2).1.2.2.2 →
        (b.xfer w.txn).byte 4 = (c.xfer w2.txn).byte 4 ∧
        (b.xfer w.txn).byte 5 = (c.xfer w2.txn).byte 5)) ∧
    (∀ v : Int, -32768 ≤ v → v ≤ 32767 →
      (∃! p : Nat × Nat, p.1 < 256 ∧ p.2 < 256 ∧
        ∀ (b : Board) (x y z : Int) (w : World), (b.xfer w.txn).status = ESP_OK →
          (b.xfer w.txn).byte 0 = p.1 → (b.xfer w.txn).byte 1 = p.2 →
          (MPU_ReadAccelerometer b x y z w).1.2.1 = v) ∧
      (∃! p : Nat × Nat, p.1 < 256 ∧ p.2 < 256 ∧
        ∀ (b : Board) (x y z : Int) (w : World), (b.xfer w.txn).status = ESP_OK →
          (b.xfer w.txn).byte 2 = p.1 → (b.xfer w.txn).byte 3 = p.2 →
          (MPU_ReadAccelerometer b x y z w).1.2.2.1 = v) ∧
      (∃! p : Nat × Nat, p.1 < 256 ∧ p.2 < 256 ∧
        ∀ (b : Board) (x y z : Int) (w : World), (b.xfer w.txn).status = ESP_OK →
          (b.xfer w.txn).byte 4 = p.1 → (b.xfer w.txn).byte 5 = p.2 →
          (MPU_ReadAccelerometer b x y z w).1.2.2.2 = v)) := by
  refine ⟨?_, ?_, ?_⟩
  · intro b x y z w vx vy vz hs x1 x2 y1 y2 z1 z2 e0 e1 e2 e3 e4 e5
    rw [MPU_ReadAccelerometer_axes b x y z w hs, e0, e1, e2, e3, e4, e5,
      (combine_encodeBE16 vx x1 x2).2.2, (combine_encodeBE16 vy y1 y2).2.2,
      (combine_encodeBE16 vz z1 z2).2.2]
  · intro b c x y z x2 y2 z2 w w2 hs hs2
    rw [MPU_ReadAccelerometer_axes b x y z w hs, MPU_ReadAccelerometer_axes c x2 y2 z2 w2 hs2]
    exact ⟨combine_injective _ _ _ _ (byte_lt _ _) (byte_lt _ _) (byte_lt _ _) (byte_lt _ _),
      combine_injective _ _ _ _ (byte_lt _ _) (byte_lt _ _) (byte_lt _ _) (byte_lt _ _),
      combine_injective _ _ _ _ (byte_lt _ _) (byte_lt _ _) (byte_lt _ _) (byte_lt _ _)⟩
  · intro v h1 h2
    obtain ⟨a, b, c⟩ := combine_encodeBE16 v h1 h2
    refine ⟨?_, ?_, ?_⟩
    · refine ⟨encodeBE16 v, ⟨a, b, ?_⟩, ?_⟩
      · intro bd x y z w hs e0 e1
        rw [MPU_ReadAccelerometer_axes bd x y z w hs, e0, e1]
        exact c
      · rintro ⟨hi, lo⟩ ⟨p1, p2, p3⟩
        have e0 : ((boardOfBytes [hi, lo, 0, 0, 0, 0]).xfer World.init.txn).byte 0 = hi :=
          boardOfBytes_byte [hi, lo, 0, 0, 0, 0] World.init.txn 0 p1
        have e1 : ((boardOfBytes [hi, lo, 0, 0, 0, 0]).xfer World.init.txn).byte 1 = lo :=
          boardOfBytes_byte [hi, lo, 0, 0, 0, 0] World.init.txn 1 p2
        have hv := p3 (boardOfBytes [hi, lo, 0, 0, 0, 0]) 0 0 0 World.init rfl e0 e1
        rw [MPU_ReadAccelerometer_axes (boardOfBytes [hi, lo, 0, 0, 0, 0]) 0 0 0 World.init rfl,
          e0, e1] at hv
        have := combine_injective hi lo _ _ p1 p2 a b (hv.trans c.symm)
        exact Prod.ext this.1 this.2
    · refine ⟨encodeBE16 v, ⟨a, b, ?_⟩, ?_⟩
      · intro bd x y z w hs e0 e1
        rw [MPU_ReadAccelerometer_axes bd x y z w hs, e0, e1]
        exact c
      · rintro ⟨hi, lo⟩ ⟨p1, p2, p3⟩
        have e0 : ((boardOfBytes [0, 0, hi, lo, 0, 0]).xfer World.init.txn).byte 2 = hi :=
          boardOfBytes_byte [0, 0, hi, lo, 0, 0] World.init.txn 2 p1
        have e1 : ((boardOfBytes [0, 0, hi, lo, 0, 0]).xfer World.init.txn).byte 3 = lo :=
          boardOfBytes_byte [0, 0, hi, lo, 0, 0] World.init.txn 3 p2
        have hv := p3 (boardOfBytes [0, 0, hi, lo, 0, 0]) 0 0 0 World.init rfl e0 e1
        rw [MPU_ReadAccelerometer_axes (boardOfBytes [0, 0, hi, lo, 0, 0]) 0 0 0 World.init rfl,
          e0, e1] at hv
        have := combine_injective hi lo _ _ p1 p2 a b (hv.trans c.symm)
        exact Prod.ext this.1 this.2
    · refine ⟨encodeBE16 v, ⟨a, b, ?_⟩, ?_⟩
      · intro bd x y z w hs e0 e1
        rw [MPU_ReadAccelerometer_axes bd x y z w hs, e0, e1]
        exact c
      · rintro ⟨hi, lo⟩ ⟨p1, p2, p3⟩
        have e0 : ((boardOfBytes [0, 0, 0, 0, hi, lo]).xfer World.init.txn).byte 4 = hi :=
          boardOfBytes_byte [0, 0, 0, 0, hi, lo] World.init.txn 4 p1
        have e1 : ((boardOfBytes [0, 0, 0, 0, hi, lo]).xfer World.init.txn).byte 5 = lo :=
          boardOfBytes_byte [0, 0, 0, 0, hi, lo] World.init.txn 5 p2
        have hv := p3 (boardOfBytes [0, 0, 0, 0, hi, lo]) 0 0 0 World.init rfl e0 e1
        rw [MPU_ReadAccelerometer_axes (boardOfBytes [0, 0, 0, 0, hi, lo]) 0 0 0 World.init rfl,
          e0, e1] at hv
        have := combine_injective hi lo _ _ p1 p2 a b (hv.trans c.symm)
        exact Prod.ext this.1 this.2

/-- C10 at a read returning the bytes 0xC0, 0x00, 0x40, 0x00, 0xFF, 0xFE, the encodings of
-16384, 16384 and -2: these are the three values `MPU_ReadAccelerometer` outputs. -/
theorem MPU_ReadAccelerometer_inverts_encodeBE16_witness :
    ((boardOfBytes [0xC0, 0x00, 0x40, 0x00, 0xFF, 0xFE]).xfer 0).status = ESP_OK ∧
    encodeBE16 (-16384) = (0xC0, 0x00) ∧ encodeBE16 16384 = (0x40, 0x00) ∧
    encodeBE16 (-2) = (0xFF, 0xFE) ∧
    (MPU_ReadAccelerometer (boardOfBytes [0xC0, 0x00, 0x40, 0x00, 0xFF, 0xFE]) 7 7 7
      World.init).1 = (ESP_OK, -16384, 16384, -2) :=
  ⟨rfl, by decide, by decide, by decide,
    MPU_ReadAccelerometer_inverts_encodeBE16.1
      (boardOfBytes [0xC0, 0x00, 0x40, 0x00, 0xFF, 0xFE]) 7 7 7 World.init
      (-16384) 16384 (-2) rfl (by decide) (by decide) (by decide) (by decide) (by decide)
      (by decide) (by decide) (by decide) (by decide) (by decide) (by decide) (by decide)⟩

theorem roundTiesEven_intCast (n : ℤ) : roundTiesEven (n : ℚ) = n := by
  simp [roundTiesEven]

theorem FloatFormat.round_exact (F : FloatFormat) (m k : ℤ)
    (hm : |m| < 2 ^ F.prec) (hk : F.emin - ((F.prec : ℤ) - 1) ≤ k)
    (hmax : |(m : ℚ) * 2 ^ k| ≤ F.maxFinite) :
    F.round ((m : ℚ) * 2 ^ k) = some ((m : ℚ) * 2 ^ k) := by
  by_cases hm0 : m = 0
  · simp [FloatFormat.round, hm0]
  have h2 : (0 : ℚ) < 2 := by norm_num
  have hq : (m : ℚ) * 2 ^ k ≠ 0 :=
    mul_ne_zero (by exact_mod_cast hm0) (zpow_ne_zero _ (by norm_num))
  have hqpos : 0 < |(m : ℚ) * 2 ^ k| := abs_pos.mpr hq
  have hmq : |(m : ℚ)| < 2 ^ F.prec := by
    have : ((|m| : ℤ) : ℚ) < ((2 ^ F.prec : ℤ) : ℚ) := by exact_mod_cast hm
    simpa using this
  have hlt : |(m : ℚ) * 2 ^ k| < ((2 : ℕ) : ℚ) ^ ((F.prec : ℤ) + k) := by
    rw [abs_mul, abs_of_pos (zpow_pos h2 k), Nat.cast_ofNat, zpow_add₀ (by norm_num),
      zpow_natCast]
    exact mul_lt_mul_of_pos_right hmq (zpow_pos h2 k)
  have hlog : Int.log 2 |(m : ℚ) * 2 ^ k| < (F.prec : ℤ) + k :=
    (Int.lt_zpow_iff_log_lt (by norm_num) hqpos).mp hlt
  have hek : max (Int.log 2 |(m : ℚ) * 2 ^ k|) F.emin - ((F.prec : ℤ) - 1) ≤ k := by
    omega
  obtain ⟨n, hn⟩ := Int.eq_ofNat_of_zero_le (sub_nonneg.mpr hek)
  have hpow : (2 : ℚ) ^ k = 2 ^ n *
      2 ^ (max (Int.log 2 |(m : ℚ) * 2 ^ k|) F.emin - ((F.prec : ℤ) - 1)) := by
    rw [← zpow_natCast, ← zpow_add₀ (by norm_num), ← hn]
    congr 1
    ring
  have hdiv : (m : ℚ) * 2 ^ k /
      2 ^ (max (Int.log 2 |(m : ℚ) * 2 ^ k|) F.emin - ((F.prec : ℤ) - 1))
      = ((m * 2 ^ n : ℤ) : ℚ) := by
    have hne : (2 : ℚ) ^ (max (Int.log 2 |(m : ℚ) * 2 ^ k|) F.emin - ((F.prec : ℤ) - 1)) ≠ 0 :=
      zpow_ne_zero _ (by norm_num)
    rw [div_eq_iff hne]
    nth_rewrite 1 [hpow]
    push_cast
    ring
  have hback : ((m * 2 ^ n : ℤ) : ℚ) *
      2 ^ (max (Int.log 2 |(m : ℚ) * 2 ^ k|) F.emin - ((F.prec : ℤ) - 1))
      = (m : ℚ) * 2 ^ k := by
    rw [← hdiv, div_mul_cancel₀]
    exact zpow_ne_zero _ (by norm_num)
  unfold FloatFormat.round
  rw [if_neg hq]
  simp only [hdiv, roundTiesEven_intCast, hback]
  rw [if_neg (not_lt.mpr hmax)]

theorem binary32_maxFinite : (2 : ℚ) ≤ binary32.maxFinite := by
  norm_num [FloatFormat.maxFinite, binary32]

theorem binary64_maxFinite : (2 : ℚ) ≤ binary64.maxFinite := by
  norm_num [FloatFormat.maxFinite, binary64]

theorem int16_div_exact (F : FloatFormat) (hp : 16 ≤ F.prec)
    (he : F.emin - ((F.prec : ℤ) - 1) ≤ -14) (hmax : 2 ≤ F.maxFinite) (r : Int) (h1 : -32768 ≤ r) (h2 : r ≤ 32767) :
    F.round ((r : ℚ) / 16384) = some ((r : ℚ) / 16384) := by
  have hr : (r : ℚ) / 16384 = (r : ℚ) * 2 ^ (-14 : ℤ) := by
    rw [div_eq_mul_inv]; norm_num
  rw [hr]
  apply FloatFormat.round_exact
  · have : |r| < 2 ^ 16 := by rw [abs_lt]; constructor <;> omega
    calc |r| < 2 ^ 16 := this
      _ ≤ 2 ^ F.prec := pow_le_pow_right₀ (by norm_num) hp
  · exact he
  · rw [← hr]
    have : |(r : ℚ) / 16384| ≤ 2 := by
      rw [abs_le]
      have a1 : (-32768 : ℚ) ≤ r := by exact_mod_cast h1
      have a2 : (r : ℚ) ≤ 32767 := by exact_mod_cast h2
      constructor
      · rw [le_div_iff₀ (by norm_num)]; linarith
      · rw [div_le_iff₀ (by norm_num)]; linarith
    exact this.trans hmax

/-- C4: for every signed 16-bit raw value each of the three converters returns exactly the
rational `raw / 16384`: neither the division in `double` nor the conversion of the quotient to
`float` rounds. -/
theorem MPU_ConverterValue_exact (r : Int) (h1 : -32768 ≤ r) (h2 : r ≤ 32767) :
    MPU_ConverterValue_X r = some ((r : ℚ) / 16384) ∧
    MPU_ConverterValue_Y r = some ((r : ℚ) / 16384) ∧
    MPU_ConverterValue_Z r = some ((r : ℚ) / 16384) := by
  have h64 := int16_div_exact binary64 (by decide) (by decide) binary64_maxFinite r h1 h2
  have h32 := int16_div_exact binary32 (by decide) (by decide) binary32_maxFinite r h1 h2
  refine ⟨?_, ?_, ?_⟩
  · unfold MPU_ConverterValue_X
    rw [h64]; exact h32
  · unfold MPU_ConverterValue_Y
    rw [h64]; exact h32
  · unfold MPU_ConverterValue_Z
    rw [h64]; exact h32

/-- C4 at the raw values 16384, -16384 and 0, which convert to 1, -1 and 0. -/
theorem MPU_ConverterValue_exact_witness :
    (-32768 : Int) ≤ 16384 ∧ MPU_ConverterValue_X 16384 = some 1 ∧
    MPU_ConverterValue_Y (-16384) = some (-1) ∧ MPU_ConverterValue_Z 0 = some 0 :=
  ⟨by decide,
    by simpa using (MPU_ConverterValue_exact 16384 (by decide) (by decide)).1,
    by simpa using (MPU_ConverterValue_exact (-16384) (by decide) (by decide)).2.1,
    by simpa using (MPU_ConverterValue_exact 0 (by decide) (by decide)).2.2⟩

/-! ## Properties of the polling loop -/

theorem loop_body_world (b : Board) (s : Main.Locals × World) :
    (Main.loop_body b s).2 = ⟨s.2.trace ++ passEvents (b.xfer s.2.txn), s.2.txn + 1⟩ := by
  unfold Main.loop_body
  simp only [MPU_ReadAccelerometer_eq]
  by_cases h : (b.xfer s.2.txn).status = ESP_OK
  · have hn : ¬ (b.xfer s.2.txn).status ≠ ESP_OK := by simp [h]
    simp [h, passEvents, Main.printf, Delay_ms, World.emit, tempo, pdMS_TO_TICKS]
  · have hn : (b.xfer s.2.txn).status ≠ ESP_OK := h
    simp [h, passEvents, ESP_LOGE, Delay_ms, World.emit, tempo, pdMS_TO_TICKS]

theorem loop_succ (b : Board) (n : Nat) (s : Main.Locals × World) :
    Main.loop b (n + 1) s = Main.loop_body b (Main.loop b n s) := by
  induction n generalizing s with
  | zero => rfl
  | succ n ih =>
    rw [Main.loop, ih]
    rfl

theorem loop_world (b : Board) (n : Nat) (s : Main.Locals × World) :
    (Main.loop b n s).2 =
      ⟨s.2.trace ++ (List.range n).flatMap (fun i => passEvents (b.xfer (s.2.txn + i))),
        s.2.txn + n⟩ := by
  induction n with
  | zero => simp [Main.loop]
  | succ n ih =>
    rw [loop_succ, loop_body_world, ih]
    simp [List.range_succ, List.flatMap_append, Nat.add_assoc]

/-- C8: once `MPU_Init` has returned `ESP_OK`, the polling loop of `app_main` never stops on
a failed read.  For every board and every number `n` of passes, the trace of `app_main` after
`n` passes is the trace of the initialization, its log line, and then for each pass in turn
one read of the accelerometer, one line (the sample line with the three converted values
when the read succeeded, the error line when it failed) and the 500 ms delay. -/
theorem app_main_polls_forever (b : Board) (uninit : Main.Locals) (n : Nat)
    (hinit : (MPU_Init b World.init).1 = ESP_OK) :
    (Main.app_main b uninit n).trace =
      (MPU_Init b World.init).2.trace ++
        .ESP_LOGI Main.TAG "Driver do MPU6500 inicializado." [] ::
        (List.range n).flatMap
          (fun i => passEvents (b.xfer ((MPU_Init b World.init).2.txn + i))) ∧
    (Main.app_main b uninit n).txn = (MPU_Init b World.init).2.txn + n := by
  have hn : ¬ (MPU_Init b World.init).1 ≠ ESP_OK := by simp [hinit]
  unfold Main.app_main
  simp only [if_neg hn, loop_world]
  simp [ESP_LOGI, World.emit]

/-- C8 at a board on which the first read of the loop (transaction 10) fails with the error
code 263 and the second read succeeds: the loop goes on to the second pass. -/
theorem app_main_polls_forever_witness :
    (MPU_Init (boardFailingAt 10 263) World.init).1 = ESP_OK ∧
    (Main.app_main (boardFailingAt 10 263) ⟨0, 0, 0⟩ 2).txn =
      (MPU_Init (boardFailingAt 10 263) World.init).2.txn + 2 :=
  ⟨by rw [MPU_Init_ok (boardFailingAt 10 263) rfl rfl (Or.inr rfl) (by
      intro k h1 h2; interval_cases k <;> rfl)],
    (app_main_polls_forever (boardFailingAt 10 263) ⟨0, 0, 0⟩ 2 (by
      rw [MPU_Init_ok (boardFailingAt 10 263) rfl rfl (Or.inr rfl) (by
        intro k h1 h2; interval_cases k <;> rfl)])).2⟩

end SDFPM
